import Mathlib

/-!
Verification of the modbis-giftcards webhook service against its
specification.  The definitions below are a shallow embedding of the
Python sources:

* `src/database/models.py` — the `gift_codes` table (`GiftCode`),
* `src/database/crud.py`   — `get_free_code` / `mark_code_used`,
* `src/main.py`            — the `/webhook/order` handler
  (`idosell_order_webhook`), `log_webhook_event`, `admin_add_codes`,
  and the `GIFT_VARIANTS` literal,
* `src/email_utils.py`     — `send_giftcard_email` (voucher count and
  single consolidated send).

Machine-level details that no claim touches (the autoincrement `id`
column, timestamps, HTTP plumbing) are omitted; everything else follows
the sources line by line.
-/

/-- One row of the `gift_codes` table (src/database/models.py, class
`GiftCode`).  Columns: `code` (unique string), `value` (denomination),
`order_id` (nullable: the claiming order's serial number, `NULL` while
the code is free).  The autoincrement primary key `id` is omitted; no
claimed property mentions it. -/
structure GiftCode where
  code : String
  value : Int
  order_id : Option String
deriving Repr, DecidableEq

/-- Python exceptions that the embedded fragments can raise. -/
inductive PyErr where
  /-- `AttributeError`, e.g. a module attribute lookup that fails. -/
  | attributeError (msg : String)
  /-- `fastapi.HTTPException(status_code, detail)`. -/
  | httpException (statusCode : Nat) (detail : String)
  /-- `NameError`: a local variable read before assignment. -/
  | nameError (msg : String)
  /-- Any database/driver failure (`SQLAlchemyError` and kin). -/
  | dbError (msg : String)
deriving Repr, DecidableEq

/-- A computation in the embedded Python fragment: it either returns a
value or raises an exception. -/
abbrev Py (α : Type) := Except PyErr α

/-- `try: body except Exception: handler` — an exception raised by the
body is given to the handler. -/
def pyTry (body : Py α) (handler : PyErr → Py α) : Py α :=
  match body with
  | .ok a => .ok a
  | .error e => handler e

/-- `try: body ... finally: fin` — when the finally-block itself raises,
that exception replaces the body's outcome (Python semantics); otherwise
the body's outcome stands. -/
def pyFinally (body : Py α) (fin : Py Unit) : Py α :=
  match fin with
  | .error e => .error e
  | .ok _ => body

/-- One row of the `webhook_events` table as `log_webhook_event` writes
it (src/main.py lines 129-169): the delivery's classification and a
diagnostic message. -/
structure WebhookEvent where
  status : String
  message : String
deriving Repr, DecidableEq

/-- Which internal steps of `log_webhook_event` fail in a given run:
`SessionLocal()`, `db.execute(INSERT ...)`, `db.commit()`, `db.close()`.
Quantifying over this record covers every failure the function's
persistence can raise. -/
structure LogFaults where
  sessionFails : Bool
  insertFails : Bool
  commitFails : Bool
  closeFails : Bool
deriving Repr, DecidableEq

/-- The `try:` block of `log_webhook_event` (src/main.py lines 141-162):
open a session, run the INSERT, commit.  The first failing step raises. -/
def logEventBody (f : LogFaults) : Py Unit :=
  if f.sessionFails then .error (.dbError "SessionLocal()")
  else if f.insertFails then .error (.dbError "db.execute(INSERT INTO webhook_events ...)")
  else if f.commitFails then .error (.dbError "db.commit()")
  else .ok ()

/-- The `finally:` block of `log_webhook_event` (src/main.py lines
165-169): `db.close()` wrapped in its own `try/except Exception: pass`.
When `SessionLocal()` itself failed, the local `db` was never bound and
`db.close()` raises `NameError` — which the inner except also swallows. -/
def logEventFinally (f : LogFaults) : Py Unit :=
  pyTry
    (if f.sessionFails then .error (.nameError "db")
     else if f.closeFails then .error (.dbError "db.close()")
     else .ok ())
    (fun _ => .ok ())

/-- `log_webhook_event` (src/main.py lines 129-169): the body under
`except Exception` (which only logs locally and returns) and the guarded
`finally`. -/
def log_webhook_event (f : LogFaults) : Py Unit :=
  pyFinally (pyTry (logEventBody f) (fun _ => .ok ())) (logEventFinally f)

/-- Whether the event row actually reached the table in a given run. -/
def logEventSaved (f : LogFaults) : Bool :=
  !f.sessionFails && !f.insertFails && !f.commitFails

/-! ### The `GIFT_VARIANTS` literal (src/main.py lines 55-61)

The dictionary display is checked against Python's grammar for dict
displays (The Python Language Reference §6.2.7: `{` key `:` value (`,`
key `:` value)* `,`? `}`, where adjacent string literals concatenate
into one expression). -/

/-- The Python tokens occurring in the `GIFT_VARIANTS` literal. -/
inductive PyTok where
  | strLit (s : String)
  | intLit (n : Int)
  | colon
  | comma
  | lbrace
  | rbrace
deriving Repr, DecidableEq

/-- The token stream of `GIFT_VARIANTS` exactly as src/main.py lines
55-61 spell it.  Line 59 (`"400 zł": 300`) carries no trailing comma
before line 60 (`"500 zł": 500,`). -/
def giftVariantsToks : List PyTok :=
  [.lbrace,
   .strLit "100 zł", .colon, .intLit 100, .comma,
   .strLit "200 zł", .colon, .intLit 200, .comma,
   .strLit "300 zł", .colon, .intLit 300, .comma,
   .strLit "400 zł", .colon, .intLit 300,
   .strLit "500 zł", .colon, .intLit 500, .comma,
   .rbrace]

/-- The same stream with the comma line 59 omits restored. -/
def giftVariantsToksFixed : List PyTok :=
  [.lbrace,
   .strLit "100 zł", .colon, .intLit 100, .comma,
   .strLit "200 zł", .colon, .intLit 200, .comma,
   .strLit "300 zł", .colon, .intLit 300, .comma,
   .strLit "400 zł", .colon, .intLit 300, .comma,
   .strLit "500 zł", .colon, .intLit 500, .comma,
   .rbrace]

/-- Implicit concatenation of adjacent string literals: after one string
literal, further string literals extend the same expression. -/
def skipStrLits : List PyTok → List PyTok
  | .strLit _ :: rest => skipStrLits rest
  | ts => ts

/-- Parse one expression of the forms occurring in a dict display whose
keys and values are literals: an integer literal, or one-or-more
adjacent string literals. -/
def parseLitExpr : List PyTok → Option (List PyTok)
  | .intLit _ :: rest => some rest
  | .strLit _ :: rest => some (skipStrLits rest)
  | _ => none

/-- Parse one `key : value` item of a dict display. -/
def parseKeyDatum (ts : List PyTok) : Option (List PyTok) :=
  match parseLitExpr ts with
  | none => none
  | some ts1 =>
    match ts1 with
    | .colon :: ts2 => parseLitExpr ts2
    | _ => none

/-- Parse the remaining `key : value` items up to and including the
closing brace; the fuel bounds recursion by the token count. -/
def parseKeyData : Nat → List PyTok → Option (List PyTok)
  | 0, _ => none
  | n + 1, ts =>
    match parseKeyDatum ts with
    | none => none
    | some ts1 =>
      match ts1 with
      | .comma :: .rbrace :: rest => some rest
      | .comma :: ts2 => parseKeyData n ts2
      | .rbrace :: rest => some rest
      | _ => none

/-- Whether a token stream is one well-formed Python dict display. -/
def dictDisplayOk (ts : List PyTok) : Bool :=
  match ts with
  | .lbrace :: .rbrace :: rest => rest.isEmpty
  | .lbrace :: ts1 => (parseKeyData (ts1.length + 1) ts1) == some []
  | _ => false

/-! ### The allocation phase of `idosell_order_webhook` (src/main.py lines 290-390) -/

/-- The handler's per-denomination count of codes already claimed by an
order (src/main.py lines 301-311): `SELECT COUNT(*) FROM gift_codes
WHERE order_id = :order_id AND value = :value`. -/
def count_claimed (rows : List GiftCode) (oid : String) (v : Int) : Nat :=
  (rows.filter (fun c => c.order_id == some oid && c.value == v)).length

/-- The attributes the `database.crud` module defines: src/database/crud.py
declares exactly the functions `get_free_code` and `mark_code_used`. -/
def crudModuleAttrs : List String := ["get_free_code", "mark_code_used"]

/-- Python attribute lookup on the `crud` module (`crud.<attr>`); an
attribute the module does not define raises `AttributeError`. -/
def crudGetAttr (attr : String) : Py Unit :=
  if crudModuleAttrs.contains attr then .ok ()
  else .error (.attributeError ("module database.crud has no attribute " ++ attr))

/-- The `AttributeError` message the claim step raises. -/
def attrErrMsg : String := "module database.crud has no attribute assign_unused_gift_code"

/-- The claim step exactly as src/main.py line 337 writes it:
`crud.assign_unused_gift_code(db, value=value, order_id=order_serial_str)`.
Python resolves the attribute `assign_unused_gift_code` on the crud
module before calling; the module defines only `get_free_code` and
`mark_code_used` (`crudModuleAttrs`), so the lookup raises
`AttributeError` and no call is ever made — the `.ok` branch of the
lookup is unreachable. -/
def assign_unused_gift_code_call : Py (Option GiftCode) :=
  match crudGetAttr "assign_unused_gift_code" with
  | .error e => .error e
  | .ok _ => .error (.attributeError "unreachable")

/-- The inner `for _ in range(remaining)` loop (src/main.py lines
336-363): each pass makes the claim step; a falsy result means pool
exhaustion — `db.rollback()`, an `error` event, `HTTPException(500)`
naming the denomination (lines 342-359); a truthy result is appended to
`assigned_codes` (lines 361-363). -/
def claimLoop (v : Int) : Nat → List (String × Int) → List WebhookEvent × Py (List (String × Int))
  | 0, acc => ([], .ok acc)
  | n + 1, acc =>
    match assign_unused_gift_code_call with
    | .error e => ([], .error e)
    | .ok none =>
        ([{ status := "error", message := "Brak kodów dla nominału " ++ toString v }],
         .error (.httpException 500 ("Brak kodów dla nominału " ++ toString v)))
    | .ok (some c) => claimLoop v n (acc ++ [(c.code, c.value)])

/-- The outer `for pos in gift_positions` loop (src/main.py lines
296-363): per (denomination, quantity) pair, count the codes the order
already holds, skip the pair when `remaining = quantity - existing_count`
is not positive, otherwise claim `remaining` codes.  `rows` is the
committed table the count queries read — in this literal model nothing
is ever written to it (the claim step raises before any write). -/
def positionsLoop (rows : List GiftCode) (oid : String) :
    List (Int × Nat) → List (String × Int) → List WebhookEvent × Py (List (String × Int))
  | [], acc => ([], .ok acc)
  | (v, q) :: rest, acc =>
    let existing : Int := count_claimed rows oid v
    let remaining : Int := q - existing
    if remaining ≤ 0 then positionsLoop rows oid rest acc
    else
      match claimLoop v remaining.toNat acc with
      | (evs, .error e) => (evs, .error e)
      | (evs, .ok acc2) =>
        let r := positionsLoop rows oid rest acc2
        (evs ++ r.1, r.2)

/-- The Python `str(e)` of an exception as the handler interpolates it
into log messages. -/
def pyErrText : PyErr → String
  | .attributeError m => m
  | .httpException _ d => d
  | .nameError m => m
  | .dbError m => m

instance {ε α : Type} [DecidableEq ε] [DecidableEq α] : DecidableEq (Except ε α) := fun x y =>
  match x, y with
  | .ok a, .ok b =>
    if h : a = b then isTrue (by rw [h]) else isFalse (fun hh => h (Except.ok.inj hh))
  | .ok _, .error _ => isFalse (fun hh => Except.noConfusion hh)
  | .error _, .ok _ => isFalse (fun hh => Except.noConfusion hh)
  | .error a, .error b =>
    if h : a = b then isTrue (by rw [h]) else isFalse (fun hh => h (Except.error.inj hh))

/-- What one run of the allocation phase leaves behind: the committed
`gift_codes` table, the `assigned_codes` list the rest of the handler
sees, the events logged during the phase, and the phase's outcome
(normal return of the claimed codes, or the propagated exception). -/
structure AllocOutcome where
  committed : List GiftCode
  assigned : List (String × Int)
  events : List WebhookEvent
  result : Py (List (String × Int))
deriving Repr, DecidableEq

/-- The allocation phase of `idosell_order_webhook` exactly as written
(src/main.py lines 290-390).  On a normal exit of the loops the handler
runs `db.commit()` (line 365); since the claim step raised before any
session write on every path that attempted a claim, the session is
unmodified and both `commit` and the `except`-branch `rollback` (line
374) leave the table as it was.  The `except Exception` branch logs an
`error` event with the exception's text (lines 381-387) and re-raises
(line 388). -/
def allocatePhase (pool : List GiftCode) (oid : String) (positions : List (Int × Nat)) :
    AllocOutcome :=
  match positionsLoop pool oid positions [] with
  | (evs, .ok assigned) =>
      { committed := pool, assigned := assigned, events := evs, result := .ok assigned }
  | (evs, .error e) =>
      { committed := pool
        assigned := []
        events := evs ++ [{ status := "error", message := "Błąd przydzielania kodów: " ++ pyErrText e }]
        result := .error e }

/-! ### The same allocation loop with the claim call resolved to the
claim primitives `crud` actually defines

`crud.assign_unused_gift_code` does not exist; the functions the crud
module does define are `get_free_code` (select one free row of the
denomination, `FOR UPDATE`) and `mark_code_used` (mark the row claimed
and `db.commit()` — crud.py line 27).  The `Resolved` definitions below
model the handler's loop with the claim step resolved to that pair, to
settle what the written rollback logic would do if the claim step ran. -/

/-- A database handle: the committed `gift_codes` table and this
session's view of it.  `commit` publishes the session's view; `rollback`
discards uncommitted changes. -/
structure Db where
  committed : List GiftCode
  session : List GiftCode
deriving Repr, DecidableEq

/-- `db.commit()`. -/
def Db.commit (db : Db) : Db := { committed := db.session, session := db.session }

/-- `db.rollback()`. -/
def Db.rollback (db : Db) : Db := { committed := db.committed, session := db.committed }

/-- `crud.get_free_code` (src/database/crud.py lines 6-19): the first
row of the denomination that is still free (`limit(1)`, `.first()`).
The source filters `GiftCode.is_used == False`; models.py declares no
`is_used` column — the free/claimed state its schema carries is
`order_id` (`NULL` iff free, exactly as the statistics and listing
queries of src/main.py read it), so free is `order_id = none` here. -/
def get_free_code (db : Db) (v : Int) : Option GiftCode :=
  (db.session.filter (fun c => c.value == v && c.order_id == none)).head?

/-- `crud.mark_code_used` (src/database/crud.py lines 21-28): set the
row's claimed state and claiming order, then `db.commit()` — each claim
is committed immediately, inside the claim step. -/
def mark_code_used (db : Db) (codeStr : String) (oid : String) : Db :=
  Db.commit { db with
    session := db.session.map
      (fun c => if c.code == codeStr then { c with order_id := some oid } else c) }

/-- The inner claim loop with the claim step resolved to
`get_free_code` + `mark_code_used`.  Pool exhaustion follows src/main.py
lines 342-359: `db.rollback()`, an `error` event naming the
denomination, `HTTPException(500)`. -/
def claimLoopResolved (oid : String) (v : Int) :
    Nat → Db → List (String × Int) → Db × List WebhookEvent × Py (List (String × Int))
  | 0, db, acc => (db, [], .ok acc)
  | n + 1, db, acc =>
    match get_free_code db v with
    | none =>
        (db.rollback,
         [{ status := "error", message := "Brak kodów dla nominału " ++ toString v }],
         .error (.httpException 500 ("Brak kodów dla nominału " ++ toString v)))
    | some c =>
        claimLoopResolved oid v n (mark_code_used db c.code oid) (acc ++ [(c.code, c.value)])

/-- The outer loop over gift positions, resolved claim step; the count
query reads this session's view. -/
def positionsLoopResolved (oid : String) :
    List (Int × Nat) → Db → List (String × Int) → Db × List WebhookEvent × Py (List (String × Int))
  | [], db, acc => (db, [], .ok acc)
  | (v, q) :: rest, db, acc =>
    let existing : Int := count_claimed db.session oid v
    let remaining : Int := q - existing
    if remaining ≤ 0 then positionsLoopResolved oid rest db acc
    else
      match claimLoopResolved oid v remaining.toNat db acc with
      | (db1, _evs, .error e) => (db1, _evs, .error e)
      | (db1, evs, .ok acc2) =>
        let r := positionsLoopResolved oid rest db1 acc2
        (r.1, evs ++ r.2.1, r.2.2)

/-- The allocation phase with the resolved claim step: a normal exit
commits (src/main.py line 365); an exception rolls back the session
(line 374 — `rollback` only discards uncommitted changes, it cannot undo
what `mark_code_used` already committed), logs an `error` event (lines
381-387) and re-raises. -/
def allocatePhaseResolved (pool : List GiftCode) (oid : String) (positions : List (Int × Nat)) :
    AllocOutcome :=
  match positionsLoopResolved oid positions { committed := pool, session := pool } [] with
  | (db, evs, .ok assigned) =>
      { committed := db.commit.committed, assigned := assigned, events := evs
        result := .ok assigned }
  | (db, evs, .error e) =>
      { committed := db.rollback.committed
        assigned := []
        events := evs ++ [{ status := "error", message := "Błąd przydzielania kodów: " ++ pyErrText e }]
        result := .error e }

/-! ### The downstream phase of `idosell_order_webhook` (src/main.py lines 392-456) -/

/-- Python truthiness of the optional strings the handler tests
(`client_email`, `order_serial`): `None` and the empty string are falsy. -/
def truthyStr : Option String → Bool
  | none => false
  | some s => !s.isEmpty

/-- What the downstream phase did: whether `send_giftcard_email` was
called, how many voucher PDFs it rendered (`send_giftcard_email`
generates one `generate_giftcard_pdf` per element of `codes` and makes
one consolidated `send_email` call, src/email_utils.py lines 213-285),
whether `idosell_client.update_order_note` was attempted, and the final
event `log_webhook_event` records. -/
structure Downstream where
  emailAttempted : Bool
  vouchersRendered : Nat
  noteAttempted : Bool
  processedEvent : WebhookEvent
deriving Repr, DecidableEq

/-- The downstream phase as written (src/main.py lines 392-456): the
e-mail is sent only under `if client_email and assigned_codes:` (line
394); the order-note update only under `if assigned_codes and
order_serial and idosell_client:` (line 416); the `processed` event is
always logged with the count of newly assigned codes (lines 443-449). -/
def postAllocation (clientEmail orderSerial : Option String) (idosellConfigured : Bool)
    (assigned : List (String × Int)) : Downstream :=
  let emailAttempted := truthyStr clientEmail && !assigned.isEmpty
  { emailAttempted := emailAttempted
    vouchersRendered := if emailAttempted then assigned.length else 0
    noteAttempted := !assigned.isEmpty && truthyStr orderSerial && idosellConfigured
    processedEvent :=
      { status := "processed"
        message := "Przydzielono " ++ toString assigned.length ++ " nowych kodów." } }

/-! ### Locating the order section of the payload (src/main.py lines 182-216) -/

/-- The JSON values an inbound webhook payload is made of. -/
inductive PyJson where
  | null
  | str (s : String)
  | num (n : Int)
  | boolean (b : Bool)
  | arr (elems : List PyJson)
  | obj (fields : List (String × PyJson))
deriving Repr

/-- Python `dict.get(k)`: the value under the key, `None` when the key
is absent; only dicts carry keys. -/
def PyJson.get : PyJson → String → PyJson
  | .obj fields, k =>
    match fields.find? (fun p => p.1 == k) with
    | some p => p.2
    | none => .null
  | _, _ => .null

/-- `isinstance(x, dict)`. -/
def PyJson.isDict : PyJson → Bool
  | .obj _ => true
  | _ => false

/-- Python `k in payload` for a dict. -/
def PyJson.hasKey : PyJson → String → Bool
  | .obj fields, k => fields.any (fun p => p.1 == k)
  | _, _ => false

/-- src/main.py lines 184-203: locate the order section among the
payload shapes the handler recognizes — `{"order": {...}}`, the first
element of a non-empty `"orders"` or `"Results"` list (taken only when
it is a dict; a non-dict first element ends the search), or the payload
itself when it carries both `orderId` and `orderSerialNumber`. -/
def extractOrder (payload : PyJson) : Option PyJson :=
  match payload with
  | .obj _ =>
    if (payload.get "order").isDict then some (payload.get "order")
    else
      match payload.get "orders" with
      | .arr (first :: _) => if first.isDict then some first else none
      | _ =>
        match payload.get "Results" with
        | .arr (first :: _) => if first.isDict then some first else none
        | _ =>
          if payload.hasKey "orderId" && payload.hasKey "orderSerialNumber" then some payload
          else none
  | _ => none

/-- The HTTP answer the handler returns on a branch. -/
structure HttpResponse where
  statusCode : Nat
  bodyStatus : String
  bodyReason : String
deriving Repr, DecidableEq

/-- src/main.py lines 205-216: when no order section was recognized the
handler logs a `bad_request` event and returns `JSONResponse({"status":
"ignored", "reason": "no_order"}, status_code=400)`; otherwise it
continues with the located order section. -/
def webhookParse (payload : PyJson) : Except (WebhookEvent × HttpResponse) PyJson :=
  match extractOrder payload with
  | some o => .ok o
  | none =>
      .error
        ({ status := "bad_request"
           message := "Webhook /webhook/order: brak lub nieprawidłowa sekcja 'order'." },
         { statusCode := 400, bodyStatus := "ignored", bodyReason := "no_order" })

/-! ### The administrative code import (src/main.py lines 1387-1443) -/

/-- What one call of the import endpoint leaves behind: the committed
table and the response — `{"status": "ok", "added": n, "inserted": n}`
on success (the pair carries `added` and `inserted`), an
`HTTPException` otherwise. -/
structure ImportOutcome where
  pool : List GiftCode
  response : Py (Nat × Nat)
deriving Repr, DecidableEq

/-- Python's `str.strip()` on a string's characters: drop whitespace
from both ends. -/
def stripChars (cs : List Char) : List Char :=
  ((cs.dropWhile Char.isWhitespace).reverse.dropWhile Char.isWhitespace).reverse

/-- Python's `str.strip()` as `admin_add_codes` applies it per code
line (src/main.py line 1405). -/
def pyStrip (s : String) : String := ⟨stripChars s.data⟩

/-- The INSERT loop of `admin_add_codes` (src/main.py lines 1414-1423)
against the unique constraint on `gift_codes.code`
(src/database/models.py line 11): each insert fails when its code
string already exists among the table's rows or the rows inserted
earlier in the same loop.  `none` is the `SQLAlchemyError` that aborts
the loop; `some` is the table's code column with the batch appended,
still uncommitted. -/
def runInserts (tableCodes : List String) : List String → Option (List String)
  | [] => some tableCodes
  | c :: rest =>
    if tableCodes.contains c then none
    else runInserts (tableCodes ++ [c]) rest

/-- `admin_add_codes` (src/main.py lines 1387-1443) for a list-shaped
`codes` payload: strip each entry and drop blanks (line 1405), reject an
empty batch with HTTP 400 (line 1410), run every INSERT and then one
`db.commit()` (lines 1414-1425); any `SQLAlchemyError` rolls the whole
batch back and returns HTTP 500 "Błąd bazy danych" (lines 1438-1441) —
there is no per-code rejection path. -/
def admin_add_codes (pool : List GiftCode) (value : Int) (codesRaw : List String) :
    ImportOutcome :=
  let codes := (codesRaw.map pyStrip).filter (fun c => !c.isEmpty)
  if codes.isEmpty then
    { pool := pool, response := .error (.httpException 400 "Brak kodów do dodania") }
  else
    match runInserts (pool.map GiftCode.code) codes with
    | none => { pool := pool, response := .error (.httpException 500 "Błąd bazy danych") }
    | some _ =>
      { pool := pool ++ codes.map (fun c => { code := c, value := value, order_id := none })
        response := .ok (codes.length, codes.length) }

/-! ### The system as a transition system over the committed table -/

/-- The operations of the system that touch the `gift_codes` table: the
administrative import, the webhook's allocation phase as written, and
the same phase with the claim step resolved to crud's primitives. -/
inductive SysOp where
  | importBatch (value : Int) (codesRaw : List String)
  | orderWebhook (oid : String) (positions : List (Int × Nat))
  | orderWebhookResolved (oid : String) (positions : List (Int × Nat))

/-- The committed table after one operation. -/
def applyOp (pool : List GiftCode) : SysOp → List GiftCode
  | .importBatch v cs => (admin_add_codes pool v cs).pool
  | .orderWebhook oid ps => (allocatePhase pool oid ps).committed
  | .orderWebhookResolved oid ps => (allocatePhaseResolved pool oid ps).committed

/-- The committed tables reachable from the initial empty table. -/
inductive Reachable : List GiftCode → Prop where
  | init : Reachable []
  | step (pool : List GiftCode) (op : SysOp) : Reachable pool → Reachable (applyOp pool op)

/-- The unique constraint on `gift_codes.code`. -/
def codesNodup (pool : List GiftCode) : Prop := (pool.map GiftCode.code).Nodup

/-- The code `cs` is claimed by order `o` in the table. -/
def claimedBy (pool : List GiftCode) (cs o : String) : Prop :=
  ∃ gc ∈ pool, gc.code = cs ∧ gc.order_id = some o

/-! ## Theorems -/

/-- C10: the `GIFT_VARIANTS` dictionary literal of src/main.py lines
55-61 is not a well-formed Python dict display — the entry
`"400 zł": 300` is followed by the key `"500 zł"` with no comma between
them, so src/main.py has a syntax error, the module cannot be imported,
and no endpoint of the application can execute. -/
theorem gift_variants_dict_is_invalid_python :
    dictDisplayOk giftVariantsToks = false := by decide

/-- Inserting the missing comma makes the display well-formed — the
grammar embedding accepts the repaired stream, so the rejection above
is due to the missing comma alone. -/
theorem gift_variants_dict_fixed_is_valid :
    dictDisplayOk giftVariantsToksFixed = true := by decide

/-- C9: `log_webhook_event` never propagates an exception to its
caller, whatever combination of its internal persistence steps
(`SessionLocal()`, the INSERT, `commit()`, `close()`) fails: the
`except Exception` branch swallows the body's failure and the
`finally`-block's `close()` is wrapped in its own swallowing `try`. -/
theorem log_webhook_event_never_raises (f : LogFaults) :
    log_webhook_event f = .ok () := by
  obtain ⟨s, i, c, cl⟩ := f
  cases s <;> cases i <;> cases c <;> cases cl <;> rfl

/-- C1 (failing input): a paid order `"ORD-2"` requiring one code of
denomination 100, with no prior claims and one free 100-code in the
pool, receives zero codes — the claim step raises `AttributeError`
(`crud.assign_unused_gift_code` is not defined) instead of claiming the
one-code deficit. -/
theorem deficit_claim_raises_attribute_error :
    (allocatePhase [{ code := "B1", value := 100, order_id := none }] "ORD-2" [(100, 1)]).assigned
      = []
    ∧ (allocatePhase [{ code := "B1", value := 100, order_id := none }] "ORD-2" [(100, 1)]).result
      = .error (.attributeError attrErrMsg) := by decide

/-- C2 (failing input): the spec's own all-or-nothing scenario — order
`"ORD-1"` requiring 2×100 and 1×500 against a pool of two free
100-codes and no 500-code — run with the claim step resolved to the
claim primitives crud defines.  `mark_code_used` commits each claim
immediately (crud.py line 27), so after the 500-exhaustion the rollback
leaves both 100-claims committed: the net claim count is 2, not 0. -/
theorem exhaustion_leaves_partial_allocation_committed :
    count_claimed (allocatePhaseResolved
        [{ code := "A1", value := 100, order_id := none },
         { code := "A2", value := 100, order_id := none }]
        "ORD-1" [(100, 2), (500, 1)]).committed "ORD-1" 100 = 2
    ∧ (allocatePhaseResolved
        [{ code := "A1", value := 100, order_id := none },
         { code := "A2", value := 100, order_id := none }]
        "ORD-1" [(100, 2), (500, 1)]).result
      = .error (.httpException 500 "Brak kodów dla nominału 500") := by decide

/-- C4 counterexample: with one newly assigned code but no client
e-mail in the payload, the e-mail dispatch is skipped — the downstream
effects are not gated on the claimed-set alone, refuting the "if and
only if the set of newly claimed codes is non-empty" reading. -/
theorem email_skipped_despite_new_codes :
    ([("GC-1", 100)] : List (String × Int)) ≠ []
    ∧ (postAllocation none (some "12345") true [("GC-1", 100)]).emailAttempted = false := by
  decide

/-- C4 as amended: downstream effects require the claimed-set to be
non-empty AND the respective prerequisite — the e-mail (with one voucher
rendered per newly claimed code) additionally needs a truthy client
e-mail, the order-note update a truthy order serial and a configured
Idosell client; with an empty claimed-set every effect is skipped and
the delivery is still logged `processed` with a message naming zero new
codes. -/
theorem downstream_effects_gated_on_new_codes (ce os : Option String) (cfg : Bool)
    (assigned : List (String × Int)) :
    ((postAllocation ce os cfg assigned).emailAttempted = true
       ↔ truthyStr ce = true ∧ assigned ≠ [])
    ∧ ((postAllocation ce os cfg assigned).noteAttempted = true
       ↔ assigned ≠ [] ∧ truthyStr os = true ∧ cfg = true)
    ∧ (postAllocation ce os cfg assigned).vouchersRendered
      = (if (postAllocation ce os cfg assigned).emailAttempted then assigned.length else 0)
    ∧ (postAllocation ce os cfg assigned).processedEvent.status = "processed"
    ∧ (assigned = [] →
        (postAllocation ce os cfg assigned).emailAttempted = false
        ∧ (postAllocation ce os cfg assigned).noteAttempted = false
        ∧ (postAllocation ce os cfg assigned).processedEvent.message
          = "Przydzielono 0 nowych kodów.") := by
  refine ⟨?_, ?_, rfl, rfl, ?_⟩
  · simp [postAllocation]
  · simp [postAllocation, and_assoc]
  · rintro rfl
    refine ⟨?_, ?_, ?_⟩
    · simp [postAllocation]
    · simp [postAllocation]
    · rfl

/-- C7 counterexample: a batch `["A", "B"]` against a pool already
holding code `"A"` inserts nothing — the whole batch is rolled back and
the endpoint answers HTTP 500, instead of rejecting only `"A"` and
inserting `"B"` with a rejected-codes list. -/
theorem duplicate_aborts_whole_batch :
    (admin_add_codes [{ code := "A", value := 100, order_id := none }] 100 ["A", "B"]).pool
      = [{ code := "A", value := 100, order_id := none }]
    ∧ (admin_add_codes [{ code := "A", value := 100, order_id := none }] 100 ["A", "B"]).response
      = .error (.httpException 500 "Błąd bazy danych") := by decide

/-- C8 counterexample: a payload with no recognizable order section
(here the empty JSON object) is answered with HTTP status 400 — an
error status, not a success acknowledgment. -/
theorem no_order_payload_gets_http_400 :
    webhookParse (PyJson.obj []) =
      .error ({ status := "bad_request"
                message := "Webhook /webhook/order: brak lub nieprawidłowa sekcja 'order'." },
              { statusCode := 400, bodyStatus := "ignored", bodyReason := "no_order" }) := rfl

/-- C8 as amended: every payload with no recognizable order section is
classified and logged (`bad_request` event) and answered with HTTP 400,
body `{"status": "ignored", "reason": "no_order"}` — an error status
the sender may retry, not a success-ish acknowledgment. -/
theorem malformed_payload_logged_and_answered_400 (payload : PyJson)
    (h : extractOrder payload = none) :
    webhookParse payload =
      .error ({ status := "bad_request"
                message := "Webhook /webhook/order: brak lub nieprawidłowa sekcja 'order'." },
              { statusCode := 400, bodyStatus := "ignored", bodyReason := "no_order" }) := by
  simp [webhookParse, h]

/-- Witness for the amended C8 at the concrete payload `null`. -/
theorem malformed_payload_logged_and_answered_400_witness :
    webhookParse PyJson.null =
      .error ({ status := "bad_request"
                message := "Webhook /webhook/order: brak lub nieprawidłowa sekcja 'order'." },
              { statusCode := 400, bodyStatus := "ignored", bodyReason := "no_order" }) :=
  malformed_payload_logged_and_answered_400 PyJson.null rfl

/-- The claim step always raises: the crud module has no attribute
`assign_unused_gift_code`. -/
theorem assign_call_raises :
    assign_unused_gift_code_call = .error (.attributeError attrErrMsg) := by decide

/-- Any attempt to claim at least one code errors out at the attribute
lookup with no event and no assignment. -/
theorem claimLoop_raises (v : Int) (n : Nat) (acc : List (String × Int)) :
    claimLoop v (n + 1) acc = ([], .error (.attributeError attrErrMsg)) := by
  simp [claimLoop, assign_call_raises]

/-- When some position still has a positive deficit, the literal
allocation loop ends in the `AttributeError` of the claim step. -/
theorem positionsLoop_deficit_raises (pool : List GiftCode) (oid : String) :
    ∀ (ps : List (Int × Nat)) (acc : List (String × Int)),
      (∃ p ∈ ps, count_claimed pool oid p.1 < p.2) →
      ∃ evs, positionsLoop pool oid ps acc = (evs, .error (.attributeError attrErrMsg))
  | [], _, h => absurd h (by simp)
  | (v, q) :: rest, acc, h => by
    by_cases hrem : (q : Int) - (count_claimed pool oid v : Int) ≤ 0
    · have hhead : ¬ count_claimed pool oid v < q := by omega
      obtain ⟨p, hp, hlt⟩ := h
      rcases List.mem_cons.mp hp with rfl | hmem
      · exact absurd hlt hhead
      · have := positionsLoop_deficit_raises pool oid rest acc ⟨p, hmem, hlt⟩
        simpa [positionsLoop, hrem] using this
    · obtain ⟨k, hk⟩ : ∃ k, ((q : Int) - (count_claimed pool oid v : Int)).toNat = k + 1 := by
        refine ⟨((q : Int) - (count_claimed pool oid v : Int)).toNat - 1, ?_⟩
        omega
      refine ⟨[], ?_⟩
      simp [positionsLoop, hrem, hk, claimLoop_raises]

/-- The allocation phase never changes the committed table: the only
write path goes through the claim step, which raises before writing. -/
theorem allocatePhase_committed (pool : List GiftCode) (oid : String)
    (positions : List (Int × Nat)) :
    (allocatePhase pool oid positions).committed = pool := by
  rcases hl : positionsLoop pool oid positions [] with ⟨evs, r⟩
  cases r <;> simp [allocatePhase, hl]

/-- C3: the webhook's claim step names `crud.assign_unused_gift_code`,
which src/database/crud.py never defines — so the committed table is
unchanged by every invocation, and whenever some requirement still has
a positive deficit the invocation ends with the propagated
`AttributeError`, an empty assigned-set, and an `error` event logged. -/
theorem webhook_never_commits_any_claim (pool : List GiftCode) (oid : String)
    (positions : List (Int × Nat)) :
    (allocatePhase pool oid positions).committed = pool
    ∧ ((∃ p ∈ positions, count_claimed pool oid p.1 < p.2) →
        (allocatePhase pool oid positions).result = .error (.attributeError attrErrMsg)
        ∧ (allocatePhase pool oid positions).assigned = []
        ∧ (allocatePhase pool oid positions).events.any (fun e => e.status == "error") = true) := by
  refine ⟨allocatePhase_committed pool oid positions, fun h => ?_⟩
  obtain ⟨evs, heq⟩ := positionsLoop_deficit_raises pool oid positions [] h
  refine ⟨?_, ?_, ?_⟩ <;> simp [allocatePhase, heq]

/-- `claimedBy` unfolded. -/
theorem claimedBy_iff (rows : List GiftCode) (cs o : String) :
    claimedBy rows cs o ↔ ∃ gc ∈ rows, gc.code = cs ∧ gc.order_id = some o := Iff.rfl

/-- A successful insert loop appends exactly the batch to the table's
code column. -/
theorem runInserts_eq_append {cs : List String} :
    ∀ {t t' : List String}, runInserts t cs = some t' → t' = t ++ cs := by
  induction cs with
  | nil =>
    intro t t' h
    simp only [runInserts, Option.some.injEq] at h
    simp [← h]
  | cons c rest ih =>
    intro t t' h
    simp only [runInserts] at h
    split at h
    · cases h
    · have := ih h
      simp [this]

/-- A successful insert loop preserves the unique constraint on the
code column. -/
theorem runInserts_nodup {cs : List String} :
    ∀ {t t' : List String}, runInserts t cs = some t' → t.Nodup → t'.Nodup := by
  induction cs with
  | nil =>
    intro t t' h hn
    simp only [runInserts, Option.some.injEq] at h
    simpa [← h] using hn
  | cons c rest ih =>
    intro t t' h hn
    simp only [runInserts] at h
    split at h
    · cases h
    · rename_i hcond
      refine ih h ?_
      have hcmem : c ∉ t := by simpa using hcond
      rw [List.nodup_append]
      refine ⟨hn, List.nodup_singleton c, ?_⟩
      intro a ha hmem
      rw [List.mem_singleton] at hmem
      exact hcmem (hmem ▸ ha)

/-- One import call either leaves the table unchanged or appends rows,
all in the free state, keeping the code column's uniqueness. -/
theorem admin_add_codes_extends (pool : List GiftCode) (v : Int) (codesRaw : List String) :
    ∃ new, (admin_add_codes pool v codesRaw).pool = pool ++ new
      ∧ (∀ c ∈ new, c.order_id = none)
      ∧ (codesNodup pool → codesNodup (pool ++ new)) := by
  by_cases hE : ((codesRaw.map pyStrip).filter (fun c => !c.isEmpty)).isEmpty = true
  · exact ⟨[], by simp [admin_add_codes, hE], by simp, by simp⟩
  · rcases hR : runInserts (pool.map GiftCode.code)
        ((codesRaw.map pyStrip).filter (fun c => !c.isEmpty)) with _ | t
    · exact ⟨[], by simp [admin_add_codes, hE, hR], by simp, by simp⟩
    · refine ⟨((codesRaw.map pyStrip).filter (fun c => !c.isEmpty)).map
          (fun c => ({ code := c, value := v, order_id := none } : GiftCode)), ?_, ?_, ?_⟩
      · simp [admin_add_codes, hE, hR]
      · intro c hc
        obtain ⟨s, _, rfl⟩ := List.mem_map.mp hc
        rfl
      · intro hnd
        have hnd0 : (pool.map GiftCode.code).Nodup := hnd
        have hnd2 : t.Nodup := runInserts_nodup hR hnd0
        have ht : t = pool.map GiftCode.code
            ++ (codesRaw.map pyStrip).filter (fun c => !c.isEmpty) := runInserts_eq_append hR
        have hmapped : (((codesRaw.map pyStrip).filter (fun c => !c.isEmpty)).map
            (fun c => ({ code := c, value := v, order_id := none } : GiftCode))).map GiftCode.code
            = (codesRaw.map pyStrip).filter (fun c => !c.isEmpty) := by
          rw [List.map_map]
          exact List.map_id _
        unfold codesNodup
        rw [List.map_append, hmapped, ← ht]
        exact hnd2

/-- Claims already committed in `pool` survive in `rows`, and `rows`
keeps the unique constraint. -/
def RowsOk (pool rows : List GiftCode) : Prop :=
  codesNodup rows ∧ ∀ cs o, claimedBy pool cs o → claimedBy rows cs o

/-- Both the committed table and the session's view satisfy `RowsOk`. -/
def DbOk (pool : List GiftCode) (db : Db) : Prop :=
  RowsOk pool db.committed ∧ RowsOk pool db.session

/-- A free code returned by `get_free_code` is a free row of the
session. -/
theorem get_free_code_spec {db : Db} {v : Int} {c : GiftCode}
    (h : get_free_code db v = some c) : c ∈ db.session ∧ c.order_id = none := by
  have hmem : c ∈ db.session.filter (fun x => x.value == v && x.order_id == none) :=
    List.mem_of_mem_head? (Option.mem_def.mpr h)
  have := List.mem_filter.mp hmem
  refine ⟨this.1, ?_⟩
  have hp := this.2
  simp only [Bool.and_eq_true, beq_iff_eq] at hp
  exact hp.2

/-- Marking one free row claimed keeps the code column and preserves
every existing claim (unique codes: the marked row cannot shadow a
claimed one). -/
theorem mark_map_rowsOk (pool rows : List GiftCode) (c : GiftCode) (oid : String)
    (hok : RowsOk pool rows) (hc : c ∈ rows) (hfree : c.order_id = none) :
    RowsOk pool (rows.map
      (fun x => if x.code == c.code then { x with order_id := some oid } else x)) := by
  obtain ⟨hnd, hcl⟩ := hok
  have hnd' : (rows.map GiftCode.code).Nodup := hnd
  have hcodes : ((rows.map
      (fun x => if x.code == c.code then { x with order_id := some oid } else x)).map
        GiftCode.code) = rows.map GiftCode.code := by
    rw [List.map_map]
    apply List.map_congr_left
    intro a _
    by_cases hab : a.code = c.code <;> simp [hab]
  constructor
  · unfold codesNodup
    rw [hcodes]
    exact hnd'
  · intro cs o hcb
    obtain ⟨gc, hgc, hcode, hord⟩ := (claimedBy_iff rows cs o).mp (hcl cs o hcb)
    rw [claimedBy_iff]
    by_cases hsame : gc.code = c.code
    · have hgceq : gc = c := List.inj_on_of_nodup_map hnd' hgc hc (by rw [hsame])
      rw [hgceq, hfree] at hord
      cases hord
    · refine ⟨gc, ?_, hcode, hord⟩
      have hfix : (fun x => if x.code == c.code then { x with order_id := some oid } else x) gc
          = gc := by simp [hsame]
      have hmem := List.mem_map_of_mem
        (fun x => if x.code == c.code then { x with order_id := some oid } else x) hgc
      rwa [hfix] at hmem

/-- The resolved claim loop preserves `DbOk` whatever it does: a claim
marks a free row and commits, exhaustion rolls back. -/
theorem claimLoopResolved_dbOk (pool : List GiftCode) (oid : String) (v : Int) :
    ∀ (n : Nat) (db : Db) (acc : List (String × Int)),
      DbOk pool db → DbOk pool (claimLoopResolved oid v n db acc).1
  | 0, db, _, h => by simpa [claimLoopResolved] using h
  | n + 1, db, acc, h => by
    rcases hg : get_free_code db v with _ | c
    · simp only [claimLoopResolved, hg]
      exact ⟨h.1, h.1⟩
    · simp only [claimLoopResolved, hg]
      apply claimLoopResolved_dbOk pool oid v n
      have hspec := get_free_code_spec hg
      have hsess := mark_map_rowsOk pool db.session c oid h.2 hspec.1 hspec.2
      exact ⟨hsess, hsess⟩

/-- The resolved outer loop preserves `DbOk`. -/
theorem positionsLoopResolved_dbOk (pool : List GiftCode) (oid : String) :
    ∀ (ps : List (Int × Nat)) (db : Db) (acc : List (String × Int)),
      DbOk pool db → DbOk pool (positionsLoopResolved oid ps db acc).1
  | [], db, _, h => by simpa [positionsLoopResolved] using h
  | (v, q) :: rest, db, acc, h => by
    by_cases hrem : (q : Int) - (count_claimed db.session oid v : Int) ≤ 0
    · have := positionsLoopResolved_dbOk pool oid rest db acc h
      simpa [positionsLoopResolved, hrem] using this
    · simp only [positionsLoopResolved]
      rw [if_neg hrem]
      rcases hcl : claimLoopResolved oid v
          ((q : Int) - (count_claimed db.session oid v : Int)).toNat db acc with ⟨db1, evs, r⟩
      have hdb1 : DbOk pool db1 := by
        have := claimLoopResolved_dbOk pool oid v
          (((q : Int) - (count_claimed db.session oid v : Int)).toNat) db acc h
        rwa [hcl] at this
      cases r with
      | error e => exact hdb1
      | ok acc2 => exact positionsLoopResolved_dbOk pool oid rest db1 acc2 hdb1

/-- The committed table after one resolved allocation keeps unique
codes and every claim that was already committed. -/
theorem allocatePhaseResolved_rowsOk (pool : List GiftCode) (oid : String)
    (ps : List (Int × Nat)) (hnd : codesNodup pool) :
    codesNodup (allocatePhaseResolved pool oid ps).committed
    ∧ ∀ cs o, claimedBy pool cs o → claimedBy (allocatePhaseResolved pool oid ps).committed cs o := by
  have h0 : DbOk pool { committed := pool, session := pool } :=
    ⟨⟨hnd, fun _ _ h => h⟩, ⟨hnd, fun _ _ h => h⟩⟩
  rcases hp : positionsLoopResolved oid ps { committed := pool, session := pool } []
    with ⟨db, evs, r⟩
  have hdb : DbOk pool db := by
    have := positionsLoopResolved_dbOk pool oid ps { committed := pool, session := pool } [] h0
    rwa [hp] at this
  cases r with
  | ok a =>
    simp only [allocatePhaseResolved, hp]
    exact ⟨hdb.2.1, hdb.2.2⟩
  | error e =>
    simp only [allocatePhaseResolved, hp]
    exact ⟨hdb.1.1, hdb.1.2⟩

/-- Every reachable committed table satisfies the unique constraint on
code strings. -/
theorem reachable_codesNodup : ∀ {pool : List GiftCode}, Reachable pool → codesNodup pool := by
  intro pool h
  induction h with
  | init => simp [codesNodup]
  | step pool op hr ih =>
    cases op with
    | importBatch v cs =>
      obtain ⟨new, hpe, _, hnd⟩ := admin_add_codes_extends pool v cs
      have : applyOp pool (.importBatch v cs) = pool ++ new := hpe
      rw [this]
      exact hnd ih
    | orderWebhook oid ps =>
      have : applyOp pool (.orderWebhook oid ps) = pool := allocatePhase_committed pool oid ps
      rw [this]
      exact ih
    | orderWebhookResolved oid ps =>
      exact (allocatePhaseResolved_rowsOk pool oid ps ih).1

/-- C6: at every reachable state of the committed pool, each gift code
is claimed by at most one order identifier, and no operation of the
system (import, the webhook as written, the webhook with the resolved
claim step) ever clears or changes a code's claiming order — a claimed
code never returns to the free pool. -/
theorem pool_claims_unique_and_permanent (pool : List GiftCode) (h : Reachable pool) :
    (∀ cs o1 o2, claimedBy pool cs o1 → claimedBy pool cs o2 → o1 = o2)
    ∧ (∀ op cs o, claimedBy pool cs o → claimedBy (applyOp pool op) cs o) := by
  have hnd : codesNodup pool := reachable_codesNodup h
  have hnd' : (pool.map GiftCode.code).Nodup := hnd
  constructor
  · intro cs o1 o2 h1 h2
    obtain ⟨g1, hg1, hc1, ho1⟩ := (claimedBy_iff pool cs o1).mp h1
    obtain ⟨g2, hg2, hc2, ho2⟩ := (claimedBy_iff pool cs o2).mp h2
    have hgeq : g1 = g2 := List.inj_on_of_nodup_map hnd' hg1 hg2 (by rw [hc1, hc2])
    rw [hgeq, ho2] at ho1
    exact (Option.some.inj ho1).symm
  · intro op cs o hc
    cases op with
    | importBatch v cs2 =>
      obtain ⟨new, hpe, _, _⟩ := admin_add_codes_extends pool v cs2
      have : applyOp pool (.importBatch v cs2) = pool ++ new := hpe
      rw [this, claimedBy_iff]
      obtain ⟨gc, hgc, hcode, hord⟩ := (claimedBy_iff pool cs o).mp hc
      exact ⟨gc, List.mem_append_left _ hgc, hcode, hord⟩
    | orderWebhook oid ps =>
      have : applyOp pool (.orderWebhook oid ps) = pool := allocatePhase_committed pool oid ps
      rw [this]
      exact hc
    | orderWebhookResolved oid ps =>
      exact (allocatePhaseResolved_rowsOk pool oid ps hnd).2 cs o hc

/-- Witness for C6 at the initial (empty, reachable) pool. -/
theorem pool_claims_unique_and_permanent_witness :
    (∀ cs o1 o2, claimedBy [] cs o1 → claimedBy [] cs o2 → o1 = o2)
    ∧ (∀ op cs o, claimedBy [] cs o → claimedBy (applyOp [] op) cs o) :=
  pool_claims_unique_and_permanent [] Reachable.init

/-- C7 as amended: the bulk import is all-or-nothing, with no per-code
rejection list.  When any code of the cleaned batch violates the unique
constraint (`runInserts` aborts), the whole batch is rolled back — the
pool is unchanged and the endpoint answers HTTP 500; when no code
violates it, every code is inserted in the free state and the response
reports the full batch size as both `added` and `inserted`. -/
theorem import_batch_all_or_nothing (pool : List GiftCode) (v : Int) (codesRaw : List String) :
    (runInserts (pool.map GiftCode.code)
        ((codesRaw.map pyStrip).filter (fun c => !c.isEmpty)) = none →
      (admin_add_codes pool v codesRaw).pool = pool
      ∧ (admin_add_codes pool v codesRaw).response
        = .error (.httpException 500 "Błąd bazy danych"))
    ∧ (∀ t, ((codesRaw.map pyStrip).filter (fun c => !c.isEmpty)) ≠ [] →
        runInserts (pool.map GiftCode.code)
          ((codesRaw.map pyStrip).filter (fun c => !c.isEmpty)) = some t →
        (admin_add_codes pool v codesRaw).pool
          = pool ++ ((codesRaw.map pyStrip).filter (fun c => !c.isEmpty)).map
              (fun c => ({ code := c, value := v, order_id := none } : GiftCode))
        ∧ (admin_add_codes pool v codesRaw).response
          = .ok (((codesRaw.map pyStrip).filter (fun c => !c.isEmpty)).length,
                 ((codesRaw.map pyStrip).filter (fun c => !c.isEmpty)).length)) := by
  constructor
  · intro hnone
    have hne : ¬ ((codesRaw.map pyStrip).filter (fun c => !c.isEmpty)).isEmpty = true := by
      intro he
      rw [List.isEmpty_iff.mp he] at hnone
      simp [runInserts] at hnone
    simp [admin_add_codes, hne, hnone]
  · intro t hne hsome
    have hE : ¬ ((codesRaw.map pyStrip).filter (fun c => !c.isEmpty)).isEmpty = true := by
      intro he
      exact hne (List.isEmpty_iff.mp he)
    simp [admin_add_codes, hE, hsome]
